import Mathlib

/-!
Verification of the data-acquisition layer of the ml_discounts repository.

The Python sources under `scripts/data/` are shallowly embedded:

* JSON values become the inductive `Val`; a parsed JSON object (Python dict,
  pandas row) is an association list `Dict`; a pandas `DataFrame` is a list of
  rows `DF`.
* The HTTP transport is abstracted: each embedded operation takes the parsed
  remote response (or a response-producing function) as an argument.
* The two credential files of `api_access.py` become the two slots of
  `TokenStore`; Python `open(path, "w")` truncates the file at open time, so
  opening a slot for writing is modelled as setting it to `some ""` before any
  write happens, and a `KeyError` raised by `response[...]` is modelled as an
  `Except.error` that leaves the store in whatever intermediate state the
  straight-line code had reached.
-/

namespace MlDiscounts

/-- A parsed JSON value. -/
inductive Val where
  | str : String → Val
  | num : ℚ → Val
  | bool : Bool → Val
  | null : Val
  | obj : List (String × Val) → Val
  | arr : List Val → Val
deriving Repr

/-- A Python dict / pandas row: ordered association list of fields. -/
abbrev Dict := List (String × Val)

/-- A pandas DataFrame: a list of rows. -/
abbrev DF := List Dict

/-- First-match lookup in an association list keyed by strings
(Python `d[k]` / membership test). -/
def alookup {β : Type} (k : String) : List (String × β) → Option β
  | [] => none
  | (k2, v) :: rest => if k2 = k then some v else alookup k rest

/-- Python `d[k] = v`: update the first binding of `k`, or append a new one. -/
def dictSet (k : String) (v : Val) : Dict → Dict
  | [] => [(k, v)]
  | (k2, w) :: rest => if k2 = k then (k2, v) :: rest else (k2, w) :: dictSet k v rest

/-- Python `del d[k]`: remove the binding(s) of `k`. -/
def dictDel (k : String) : Dict → Dict
  | [] => []
  | (k2, v) :: rest => if k2 = k then dictDel k rest else (k2, v) :: dictDel k rest

/-- The two one-string credential files of `scripts/data/secrets/`. A slot is
`none` while the file does not exist, `some s` once it holds the string `s`. -/
structure TokenStore where
  access_slot : Option String
  refresh_slot : Option String
deriving Repr, DecidableEq

/-- The parsed JSON body of the OAuth token endpoint: an association list of
string fields. -/
abbrev TokenResp := List (String × String)

/-- Shallow embedding of `get_access_token` (src/scripts/data/api_access.py,
lines 24-39).  The POST and `response.json()` are abstracted into the already
parsed `response`.  The function then runs, in source order:
`open(PATH_ACCESS_TOKEN, "w")` (truncates the slot), `file.write
(response["access_token"])` (KeyError if absent, else write), then the same
two steps for the refresh slot, and finally returns the response dict. -/
def get_access_token (response : TokenResp) (st : TokenStore) :
    Except String TokenResp × TokenStore :=
  let st1 : TokenStore := { st with access_slot := some "" }
  match alookup "access_token" response with
  | none => (Except.error "KeyError: access_token", st1)
  | some a =>
    let st2 : TokenStore := { st1 with access_slot := some a }
    let st3 : TokenStore := { st2 with refresh_slot := some "" }
    match alookup "refresh_token" response with
    | none => (Except.error "KeyError: refresh_token", st3)
    | some r => (Except.ok response, { st3 with refresh_slot := some r })

/-- Shallow embedding of `refresh_access_token` (src/scripts/data/api_access.py,
lines 55-66): truncate-and-write the access slot with
`response["access_token"]`; the refresh slot is never touched; returns the new
access token string. -/
def refresh_access_token (response : TokenResp) (st : TokenStore) :
    Except String String × TokenStore :=
  let st1 : TokenStore := { st with access_slot := some "" }
  match alookup "access_token" response with
  | none => (Except.error "KeyError: access_token", st1)
  | some a => (Except.ok a, { st1 with access_slot := some a })

/-- C1 counterexample: a response that carries `access_token` but lacks
`refresh_token` makes `get_access_token` fail, yet the stored access-token
slot has been overwritten (and the refresh slot truncated) by the failed
call — partial credentials are persisted, contradicting the claim that
neither stored token slot is changed. -/
theorem c1_exchange_counterexample :
    alookup "refresh_token" [("access_token", "newA")] = (none : Option String) ∧
    (get_access_token [("access_token", "newA")] ⟨some "oldA", some "oldR"⟩).1.isOk = false ∧
    (get_access_token [("access_token", "newA")] ⟨some "oldA", some "oldR"⟩).2.access_slot
      ≠ some "oldA" := by
  refine ⟨rfl, rfl, ?_⟩
  decide

/-- C1 amended: when the response lacks `access_token` or `refresh_token`,
the exchange fails with a `KeyError`, but it does persist partial state: the
access-token slot is truncated and, when `access_token` is present,
overwritten with the new value; the refresh-token slot is truncated exactly
when `access_token` was present; only when `access_token` is absent is the
refresh slot left unchanged. -/
theorem c1_exchange_failure_state (response : TokenResp) (st : TokenStore)
    (h : alookup "access_token" response = none ∨
         alookup "refresh_token" response = none) :
    (get_access_token response st).1.isOk = false ∧
    ((alookup "access_token" response = none ∧
        (get_access_token response st).2 = ⟨some "", st.refresh_slot⟩) ∨
     (∃ a, alookup "access_token" response = some a ∧
        alookup "refresh_token" response = none ∧
        (get_access_token response st).2 = ⟨some a, some ""⟩)) := by
  rcases ha : alookup "access_token" response with _ | a
  · exact ⟨by simp [get_access_token, ha, Except.isOk, Except.toBool], Or.inl ⟨rfl, by simp [get_access_token, ha]⟩⟩
  · rcases hr : alookup "refresh_token" response with _ | r
    · exact ⟨by simp [get_access_token, ha, hr, Except.isOk, Except.toBool],
        Or.inr ⟨a, rfl, rfl, by simp [get_access_token, ha, hr]⟩⟩
    · rcases h with h | h
      · exact absurd ha (by simp [h])
      · exact absurd hr (by simp [h])

/-- C1 witness: the amended theorem applied to an empty response over a
populated store. -/
theorem c1_exchange_failure_state_witness :
    (get_access_token [] ⟨some "oldA", some "oldR"⟩).1.isOk = false ∧
    ((alookup "access_token" ([] : TokenResp) = none ∧
        (get_access_token [] ⟨some "oldA", some "oldR"⟩).2 = ⟨some "", some "oldR"⟩) ∨
     (∃ a, alookup "access_token" ([] : TokenResp) = some a ∧
        alookup "refresh_token" ([] : TokenResp) = none ∧
        (get_access_token [] ⟨some "oldA", some "oldR"⟩).2 = ⟨some a, some ""⟩)) :=
  c1_exchange_failure_state [] ⟨some "oldA", some "oldR"⟩ (Or.inl rfl)

/-- C3: a refresh call whose response contains `access_token` succeeds,
returns that new access token, stores it in the access slot, and leaves the
refresh slot untouched. -/
theorem c3_refresh_frame (response : TokenResp) (st : TokenStore) (a : String)
    (h : alookup "access_token" response = some a) :
    (refresh_access_token response st).1 = Except.ok a ∧
    (refresh_access_token response st).2.access_slot = some a ∧
    (refresh_access_token response st).2.refresh_slot = st.refresh_slot := by
  simp [refresh_access_token, h]

/-- C3 witness: a concrete refresh over a populated store. -/
theorem c3_refresh_frame_witness :
    (refresh_access_token [("access_token", "fresh")] ⟨some "oldA", some "oldR"⟩).1
        = Except.ok "fresh" ∧
    (refresh_access_token [("access_token", "fresh")] ⟨some "oldA", some "oldR"⟩).2.access_slot
        = some "fresh" ∧
    (refresh_access_token [("access_token", "fresh")] ⟨some "oldA", some "oldR"⟩).2.refresh_slot
        = (⟨some "oldA", some "oldR"⟩ : TokenStore).refresh_slot :=
  c3_refresh_frame [("access_token", "fresh")] ⟨some "oldA", some "oldR"⟩ "fresh" rfl

/-- A category as parsed from the categories endpoint. -/
structure Category where
  id : String
  name : String
deriving Repr, DecidableEq

/-- Shallow embedding of `DataAcquisition.get_categories`
(src/scripts/data/data_acquisition.py, lines 40-43) with the GET and JSON
parse abstracted as `raw`: build the frame and `sort_values(by="id")`. -/
def get_categories (raw : List Category) : List Category :=
  raw.mergeSort (fun a b => decide (a.id ≤ b.id))

/-- C8: the catalog sequence is sorted ascending by id, and has no duplicate
ids whenever the source list had none. -/
theorem c8_categories_sorted (raw : List Category) :
    List.Sorted (fun a b : Category => a.id ≤ b.id) (get_categories raw) ∧
    ((raw.map Category.id).Nodup → ((get_categories raw).map Category.id).Nodup) := by
  constructor
  · have h := List.sorted_mergeSort
      (fun (a b c : Category) hab hbc => by
        have h1 : a.id ≤ b.id := of_decide_eq_true hab
        have h2 : b.id ≤ c.id := of_decide_eq_true hbc
        exact decide_eq_true (le_trans h1 h2))
      (fun (a b : Category) => by
        rcases le_total a.id b.id with h | h <;> simp [h])
      raw
    exact h.imp (fun hab => of_decide_eq_true hab)
  · intro hnd
    exact (((List.mergeSort_perm raw _).map Category.id).nodup_iff).mpr hnd

/-- C8 witness: a concrete unsorted duplicate-free catalog. -/
theorem c8_categories_sorted_witness :
    List.Sorted (fun a b : Category => a.id ≤ b.id)
      (get_categories [⟨"MCO2", "b"⟩, ⟨"MCO1", "a"⟩]) ∧
    (([⟨"MCO2", "b"⟩, ⟨"MCO1", "a"⟩].map Category.id).Nodup →
      ((get_categories [⟨"MCO2", "b"⟩, ⟨"MCO1", "a"⟩]).map Category.id).Nodup) :=
  c8_categories_sorted [⟨"MCO2", "b"⟩, ⟨"MCO1", "a"⟩]

/-- `np.arange(init_offset, final_offset + 50, 50)` over the naturals
(source line 153): `init_offset, init_offset + 50, ...` strictly below
`final_offset + 50`. -/
def offset_range (init_offset final_offset : Nat) : List Nat :=
  (List.range ((final_offset + 50 - init_offset + 49) / 50)).map
    (fun k => init_offset + 50 * k)

/-- The (category, offset) pairs enumerated by `get_all_items_by_cats`
(source line 154); `itertools.product` is category-major. -/
def item_pages (cats : List String) (init_offset final_offset : Nat) :
    List (String × Nat) :=
  cats.flatMap (fun c => (offset_range init_offset final_offset).map (fun o => (c, o)))

/-- Membership in the arange offset list, assuming the well-formed bounds the
spec scenario implies. -/
theorem mem_offset_range_iff {init_offset final_offset o : Nat}
    (hle : init_offset ≤ final_offset) (hdvd : 50 ∣ final_offset - init_offset) :
    o ∈ offset_range init_offset final_offset ↔
      init_offset ≤ o ∧ o ≤ final_offset ∧ 50 ∣ o - init_offset := by
  rcases hdvd with ⟨m, hm⟩
  simp only [offset_range, List.mem_map, List.mem_range]
  constructor
  · rintro ⟨k, hk, rfl⟩
    refine ⟨by omega, by omega, ⟨k, by omega⟩⟩
  · rintro ⟨h1, h2, j, hj⟩
    exact ⟨j, by omega, by omega⟩

/-- C4 counterexample: with bounds `init_offset = 0`, `final_offset = 60`,
the range harvest fetches the page at offset 100, which exceeds
`final_offset` — the fetched set is not the claimed cross product ending at
`final_offset`. -/
theorem c4_offset_counterexample :
    ("c1", 100) ∈ item_pages ["c1"] 0 60 ∧ ¬ (100 ≤ 60) := by
  constructor
  · decide
  · decide

/-- C4 amended: the fetched pages are the cross product of the catalog ids
with `np.arange(init_offset, final_offset + 50, 50)`; when
`init_offset ≤ final_offset` and their difference is a multiple of 50 (the
spec scenario), this is exactly the claimed cross product with offsets
`init_offset, init_offset + 50, ..., final_offset`, and no offset beyond
`final_offset` is fetched. -/
theorem c4_pages_cross_product (cats : List String)
    (init_offset final_offset : Nat) (c : String) (o : Nat)
    (hle : init_offset ≤ final_offset)
    (hdvd : 50 ∣ final_offset - init_offset) :
    (c, o) ∈ item_pages cats init_offset final_offset ↔
      (c ∈ cats ∧ init_offset ≤ o ∧ o ≤ final_offset ∧ 50 ∣ o - init_offset) := by
  simp only [item_pages, List.mem_flatMap, List.mem_map, Prod.mk.injEq]
  constructor
  · rintro ⟨c2, hc2, o2, ho2, rfl, rfl⟩
    exact ⟨hc2, (mem_offset_range_iff hle hdvd).mp ho2⟩
  · rintro ⟨hc, h⟩
    exact ⟨c, hc, o, (mem_offset_range_iff hle hdvd).mpr h, rfl, rfl⟩

/-- C4 witness: concrete bounds 0 and 100 and the fetched offset 50. -/
theorem c4_pages_cross_product_witness :
    ("c1", 50) ∈ item_pages ["c1"] 0 100 ↔
      ("c1" ∈ ["c1"] ∧ 0 ≤ 50 ∧ 50 ≤ 100 ∧ 50 ∣ 50 - 0) :=
  c4_pages_cross_product ["c1"] 0 100 "c1" 50 (by decide) (by decide)

/-- Is a column present in the frame?  A pandas frame built from a record
list has as columns the union of the records' keys, so `c in df.columns` is
`some row has key c`. -/
def dfHasCol (df : DF) (c : String) : Bool :=
  df.any (fun row => (alookup c row).isSome)

/-- Is this value a pandas null? -/
def Val.isNull : Val → Bool
  | Val.null => true
  | _ => false

/-- Does column `c` survive `dropna(axis=1, how="all")`: some row carries a
non-null value for it. -/
def colKeep (df : DF) (c : String) : Bool :=
  df.any (fun r => match alookup c r with
    | some v => !v.isNull
    | none => false)

/-- `df.dropna(axis=1, how="all")` (source line 130): drop every column whose
value is missing or null in all rows. -/
def dropNullCols (df : DF) : DF :=
  df.map (fun row => row.filter (fun p => colKeep df p.1))

/-- `get_only_one_attr` (source lines 102-105): scan the attribute list in
order; each step evaluates `row[i]["id"]`, which raises `TypeError` when the
entry is not a record and `KeyError` when the record lacks an `id` field —
both uncaught in the source, aborting the page fetch.  A non-string `id`
value compares unequal to the requested name and the scan continues; an
exhausted scan returns Python `None` (`Val.null`). -/
def get_only_one_attr (attrs : List Val) (attr_name : String) : Except String Val :=
  match attrs with
  | [] => Except.ok Val.null
  | v :: rest =>
    match v with
    | Val.obj fl =>
      match alookup "id" fl with
      | some (Val.str s) =>
        if s = attr_name then Except.ok v else get_only_one_attr rest attr_name
      | some _ => get_only_one_attr rest attr_name
      | none => Except.error "KeyError: id"
    | _ => Except.error "TypeError: attribute entry is not a record"

/-- The four explodable columns of `explode_data` (source line 171). -/
def cols_explode : List String := ["shipping", "seller", "installments", "brand"]

/-- One row's contribution of column `col` inside `explode_data`:
`df[col].apply(pd.Series)` turns a record cell into one column per field and
a list cell into positionally numbered columns; any other cell — a scalar, a
null, or the NaN a frame holds where this row lacks a column other rows
carry — becomes the single Series cell at position `0`.  The columns are
then renamed `col_<subkey>` (source lines 176-177). -/
def explodeRowCol (row : Dict) (col : String) : Dict :=
  match alookup col row with
  | some (Val.obj fl) => fl.map (fun p => (col ++ "_" ++ p.1, p.2))
  | some (Val.arr l) => l.enum.map (fun p => (col ++ "_" ++ toString p.1, p.2))
  | some v => [(col ++ "_0", v)]
  | none => [(col ++ "_0", Val.null)]

/-- One row of the frame produced by `explode_data`: the axis=1 accumulation,
in loop order, of the expansions of the explodable columns present in the
frame. -/
def explodeRow (df_items : DF) (row : Dict) : Dict :=
  (cols_explode.filter (fun col => dfHasCol df_items col)).foldl
    (fun acc col => acc ++ explodeRowCol row col) []

/-- `explode_data` (source lines 171-179): for each explodable column present
in the frame, expand its cells into prefixed columns, accumulating the
per-column frames left to right with the axis=1 concat of the loop; columns
absent from the frame are skipped. -/
def explode_data (df_items : DF) : DF :=
  df_items.map (explodeRow df_items)

/-- The deny-list of `clean_data_cols` (source lines 192-198). -/
def cols_delete : List String :=
  ["thumbnail_id", "thumbnail", "currency_id", "order_backend",
   "use_thumbnail_id", "attributes", "installments",
   "differential_pricing", "inventory_id", "variation_filters",
   "variations_data", "shipping", "seller", "brand_id",
   "brand_name", "brand_value_id", "brand_attribute_group_id",
   "brand_attribute_group_name", "brand_value_struct", "brand_values",
   "brand_source", "brand_value_type", "brand"]

/-- `clean_data_cols` (source lines 192-200): drop the deny-list columns that
exist in the frame. -/
def clean_data_cols (df : DF) : DF :=
  df.map (fun row => row.filter (fun p => !(cols_delete.contains p.1)))

/-- The body of `items["attributes"].apply(lambda x: get_only_one_attr(x,
"BRAND"))` for one cell (source line 137).  Python `len(x)` and `x[i]` drive
the cases: a list cell is scanned by `get_only_one_attr`; a missing cell is
the NaN the frame holds where this row lacks the column other rows carry,
and `len(nan)` raises `TypeError`, as does `len` of any other scalar; an
empty string or empty record has `len` 0 and the loop falls through to
`None`, while a non-empty one raises on the first subscript. -/
def brand_of_attrs_cell (cell : Option Val) : Except String Val :=
  match cell with
  | some (Val.arr l) => get_only_one_attr l "BRAND"
  | some (Val.str s) =>
    if s.length = 0 then Except.ok Val.null
    else Except.error "TypeError: string indices must be integers"
  | some (Val.obj fl) =>
    if fl.length = 0 then Except.ok Val.null
    else Except.error "KeyError: 0"
  | _ => Except.error "TypeError: object has no len"

/-- The brand column assignment of source line 137, applied row by row in
frame order; the first raising cell aborts the whole `apply`, hence the page
fetch. -/
def apply_brand : List Dict → Except String (List Dict)
  | [] => Except.ok []
  | row :: rest =>
    match brand_of_attrs_cell (alookup "attributes" row) with
    | Except.error e => Except.error e
    | Except.ok b =>
      match apply_brand rest with
      | Except.error e => Except.error e
      | Except.ok rest2 => Except.ok (dictSet "brand" b row :: rest2)

/-- `items_by_category` (source lines 122-143) with the GET and JSON parse
abstracted as `results` (the parsed `items.json()["results"]` record list):
tag every row with the category, drop all-null columns, return at once when
the page has zero rows, assign the BRAND attribute to a `brand` column when
an `attributes` column exists (a step that can raise uncaught, in which case
no table is returned — `Except.error`), explode, concat axis=1, clean. -/
def items_by_category (results : List Dict) (category : String) :
    Except String DF :=
  let items := results.map (fun row => dictSet "category" (Val.str category) row)
  let items := dropNullCols items
  if items.length = 0 then Except.ok items
  else
    match (if dfHasCol items "attributes" then apply_brand items
           else Except.ok items) with
    | Except.error e => Except.error e
    | Except.ok items2 =>
      Except.ok (clean_data_cols
        (List.zipWith (fun r e => r ++ e) items2 (explode_data items2)))

/-- The loop of `get_all_items_by_cats` over the remaining
(category, offset) pairs: fetch the page; a raising fetch aborts the scan
with the exception; an empty page is skipped; otherwise the `save_data`
call is recorded keyed by the pair. -/
def harvest_pages (results : String → Nat → List Dict) :
    List (String × Nat) → List ((String × Nat) × DF) × Except String Unit
  | [] => ([], Except.ok ())
  | p :: rest =>
    match items_by_category (results p.1 p.2) p.1 with
    | Except.error e => ([], Except.error e)
    | Except.ok cat_data =>
      if cat_data.length = 0 then harvest_pages results rest
      else
        ((p, cat_data) :: (harvest_pages results rest).1,
          (harvest_pages results rest).2)

/-- `get_all_items_by_cats` (source lines 153-159), recording its side
effects: the `save_data` calls issued over the category × offset product
(first component) and whether the scan ran to completion or aborted on an
uncaught per-page exception (second component). -/
def get_all_items_by_cats (results : String → Nat → List Dict)
    (cats : List String) (init_offset final_offset : Nat) :
    List ((String × Nat) × DF) × Except String Unit :=
  harvest_pages results (item_pages cats init_offset final_offset)

/-- C5: an upstream page with an empty results array yields a zero-row table
from the page fetch (which does not raise), and the range harvest writes no
file for that (category, offset) pair. -/
theorem c5_empty_page_not_persisted (results : String → Nat → List Dict)
    (cats : List String) (init_offset final_offset : Nat) (c : String) (o : Nat)
    (h : results c o = []) :
    items_by_category (results c o) c = Except.ok [] ∧
    ∀ d : DF, ((c, o), d) ∉
      (get_all_items_by_cats results cats init_offset final_offset).1 := by
  have hempty : items_by_category (results c o) c = Except.ok [] := by
    rw [h]; rfl
  refine ⟨hempty, ?_⟩
  intro d
  unfold get_all_items_by_cats
  generalize item_pages cats init_offset final_offset = pages
  induction pages with
  | nil => simp [harvest_pages]
  | cons p rest ih =>
    rcases hresp : items_by_category (results p.1 p.2) p.1 with e | cat_data
    · simp [harvest_pages, hresp]
    · by_cases hz : cat_data.length = 0
      · simp only [harvest_pages, hresp]
        simpa [hz] using ih
      · simp only [harvest_pages, hresp]
        rw [if_neg hz]
        intro hmem
        rcases List.mem_cons.mp hmem with heq | hmem2
        · have hp : p = (c, o) := (congrArg Prod.fst heq).symm
          rw [hp, hempty] at hresp
          injection hresp with h2
          exact hz (by rw [← h2]; rfl)
        · exact ih hmem2

/-- C5 witness: a stub upstream returning an empty page everywhere. -/
theorem c5_empty_page_not_persisted_witness :
    items_by_category ((fun (_ : String) (_ : Nat) => ([] : List Dict)) "c1" 0) "c1"
      = Except.ok [] ∧
    ∀ d : DF, (("c1", 0), d) ∉
      (get_all_items_by_cats (fun _ _ => ([] : List Dict)) ["c1"] 0 50).1 :=
  c5_empty_page_not_persisted (fun _ _ => ([] : List Dict)) ["c1"] 0 50 "c1" 0 rfl

/-- pandas `DataFrame.sum(axis=1)` over one row: the sum of its numeric
entries (non-numeric entries contribute nothing). -/
def rowNumSum (row : Dict) : ℚ :=
  (row.map (fun p => match p.2 with | Val.num q => q | _ => 0)).sum

/-- `RatingsDataAcquisition.get_rating` (source lines 333-352) with the GET
and JSON parse abstracted as the per-item `fetch` outcome: build a one-row
frame from `rating_levels`, assign `total_reviews` (the axis=1 sum of the
histogram columns computed before the assignment), `rating_average` and
`id`, persist the row, and return it; any exception inside the `try`
(failed request, missing field, non-record body) is caught and an empty
frame is returned instead. -/
def get_rating (fetch : String → Except String Val) (item_id : String) : DF :=
  match fetch item_id with
  | Except.error _ => []
  | Except.ok v =>
    match v with
    | Val.obj fields =>
      match alookup "rating_levels" fields with
      | some (Val.obj levels) =>
        match alookup "rating_average" fields with
        | some avg =>
          [dictSet "id" (Val.str item_id)
            (dictSet "rating_average" avg
              (dictSet "total_reviews" (Val.num (rowNumSum levels)) levels))]
        | none => []
      | _ => []
    | _ => []

/-- `pd.concat` over a list of frames: raises on an empty list, else stacks
the rows. -/
def concatDF (dfs : List DF) : Except String DF :=
  match dfs with
  | [] => Except.error "ValueError: No objects to concatenate"
  | _ => Except.ok dfs.flatten

/-- `get_all_ratings` (source lines 305-321): map `get_rating` over the ids
(`ThreadPoolExecutor.map` yields per-id results in input order), `pd.concat`
the per-item frames, persist and return the combined frame. -/
def get_all_ratings (fetch : String → Except String Val)
    (items_id : List String) : Except String DF :=
  concatDF (items_id.map (get_rating fetch))

/-- Helper: a list of one-row frames sums to the list's length. -/
theorem sum_map_length_one {α β : Type} (g : α → List β) :
    ∀ l : List α, (∀ x ∈ l, (g x).length = 1) →
      (l.map (fun x => (g x).length)).sum = l.length := by
  intro l
  induction l with
  | nil => intro _; simp
  | cons b u ihu =>
    intro h
    have hb := h b (by simp)
    have hu := ihu (fun x hx => h x (by simp [hx]))
    simp only [List.map_cons, List.sum_cons, List.length_cons, hb, hu]
    omega

/-- Helper: the flattened frame list loses exactly one row when the frame at
one index is empty and every other frame has exactly one row. -/
theorem flatten_length_single_gap {α β : Type} (g : α → List β) :
    ∀ (l : List α) (j : Nat) (hj : j < l.length),
      (∀ i (hi : i < l.length), i ≠ j → (g (l.get ⟨i, hi⟩)).length = 1) →
      (g (l.get ⟨j, hj⟩)).length = 0 →
      ((l.map g).flatten).length = l.length - 1 := by
  intro l
  induction l with
  | nil => intro j hj _ _; exact absurd hj (by simp)
  | cons a t ih =>
    intro j hj hok hz
    cases j with
    | zero =>
      have hall : ∀ x ∈ t, (g x).length = 1 := by
        intro x hx
        obtain ⟨n, rfl⟩ := List.mem_iff_get.mp hx
        exact hok (n.1 + 1) (by simp [Nat.succ_lt_succ n.2]) (by simp)
      have hsum := sum_map_length_one g t hall
      have hz0 : (g a).length = 0 := hz
      simp only [List.map_cons, List.flatten_cons, List.length_append,
        List.length_flatten, List.map_map, Function.comp_def, hz0,
        List.length_cons, hsum]
      omega
    | succ j2 =>
      have hj2 : j2 < t.length := by simpa using Nat.lt_of_succ_lt_succ hj
      have hok2 : ∀ i (hi : i < t.length), i ≠ j2 →
          (g (t.get ⟨i, hi⟩)).length = 1 := by
        intro i hi hne
        exact hok (i + 1) (by simpa using Nat.succ_lt_succ hi) (by omega)
      have hz2 : (g (t.get ⟨j2, hj2⟩)).length = 0 := hz
      have htail := ih j2 hj2 hok2 hz2
      have ha : (g a).length = 1 := hok 0 (by simp) (by omega)
      have htlen : 1 ≤ t.length := by omega
      simp only [List.map_cons, List.flatten_cons, List.length_append,
        List.length_cons, ha, htail]
      omega

/-- C2: a rating batch where the fetch of the item at one index raises and
every other item yields a one-row frame does not raise; the failed item
contributes zero rows, and the combined table is exactly the concatenation
of the successful items' rows, with one row per successful item. -/
theorem c2_rating_batch_isolation (fetch : String → Except String Val)
    (items_id : List String) (j : Nat) (hj : j < items_id.length) (e : String)
    (hfail : fetch (items_id.get ⟨j, hj⟩) = Except.error e)
    (hok : ∀ i (hi : i < items_id.length), i ≠ j →
      (get_rating fetch (items_id.get ⟨i, hi⟩)).length = 1) :
    get_all_ratings fetch items_id =
      Except.ok ((items_id.map (get_rating fetch)).flatten) ∧
    get_rating fetch (items_id.get ⟨j, hj⟩) = [] ∧
    ((items_id.map (get_rating fetch)).flatten).length = items_id.length - 1 := by
  have hzero : get_rating fetch (items_id.get ⟨j, hj⟩) = [] := by
    unfold get_rating
    rw [hfail]
  refine ⟨?_, hzero, ?_⟩
  · cases items_id with
    | nil => exact absurd hj (by simp)
    | cons a t => rfl
  · exact flatten_length_single_gap (get_rating fetch) items_id j hj hok
      (by rw [hzero]; rfl)

/-- C2 witness: two items, the second of which fails. -/
theorem c2_rating_batch_isolation_witness :
    get_all_ratings
        (fun i => if i = "ok1" then
            Except.ok (Val.obj [("rating_levels", Val.obj [("5", Val.num 3)]),
                               ("rating_average", Val.num 5)])
          else Except.error "timeout") ["ok1", "bad"] =
      Except.ok ((["ok1", "bad"].map (get_rating
        (fun i => if i = "ok1" then
            Except.ok (Val.obj [("rating_levels", Val.obj [("5", Val.num 3)]),
                               ("rating_average", Val.num 5)])
          else Except.error "timeout"))).flatten) ∧
    get_rating
        (fun i => if i = "ok1" then
            Except.ok (Val.obj [("rating_levels", Val.obj [("5", Val.num 3)]),
                               ("rating_average", Val.num 5)])
          else Except.error "timeout") (["ok1", "bad"].get ⟨1, by simp⟩) = [] ∧
    ((["ok1", "bad"].map (get_rating
        (fun i => if i = "ok1" then
            Except.ok (Val.obj [("rating_levels", Val.obj [("5", Val.num 3)]),
                               ("rating_average", Val.num 5)])
          else Except.error "timeout"))).flatten).length = ["ok1", "bad"].length - 1 :=
  c2_rating_batch_isolation _ ["ok1", "bad"] 1 (by simp) "timeout" (by simp)
    (by
      intro i hi hne
      simp only [List.length_cons, List.length_nil] at hi
      obtain rfl : i = 0 := by omega
      simp [get_rating, alookup, dictSet])

/-- C7: the concrete rating fetch of `item123` against the stub response
with histogram `{1: 2, 5: 10}` and average 4.5 yields a one-row table whose
`total_reviews` is 12 (the histogram sum), whose `rating_average` is 4.5 and
whose `id` is `item123`. -/
theorem c7_rating_concrete :
    get_rating (fun _ => Except.ok (Val.obj
        [("rating_levels", Val.obj [("1", Val.num 2), ("5", Val.num 10)]),
         ("rating_average", Val.num (9 / 2))])) "item123" =
      [[("1", Val.num 2), ("5", Val.num 10),
        ("total_reviews", Val.num 12),
        ("rating_average", Val.num (9 / 2)),
        ("id", Val.str "item123")]] ∧
    (get_rating (fun _ => Except.ok (Val.obj
        [("rating_levels", Val.obj [("1", Val.num 2), ("5", Val.num 10)]),
         ("rating_average", Val.num (9 / 2))])) "item123").length = 1 := by
  have h12 : rowNumSum [("1", Val.num 2), ("5", Val.num 10)] = 12 := by
    simp [rowNumSum]
    norm_num
  constructor
  · simp [get_rating, alookup, dictSet, h12]
  · simp [get_rating, alookup]

/-- Python subscript `v[k]` on a JSON value: defined only on records. -/
def valGet (v : Val) (k : String) : Option Val :=
  match v with
  | Val.obj fl => alookup k fl
  | _ => none

/-- `get_seller_reputation_data` (source lines 256-266).  The caller's dict
is mutated in place; the embedding threads the dict explicitly and returns
its post-call state next to the one-row frame built from it (the frame is
built from the already mutated dict).  In source order: assign
`transactions_period` from `rep_data["transactions"]["period"]`, assign
`transactions_total` from `rep_data["transactions"]["total"]`, delete
`transactions`, build `pd.DataFrame([rep_data])`.  A missing key or a
non-record `transactions` raises. -/
def get_seller_reputation_data (rep_data : Dict) : Except String (Dict × DF) :=
  match (alookup "transactions" rep_data).bind (fun tv => valGet tv "period") with
  | none => Except.error "KeyError: period"
  | some p =>
    let d1 := dictSet "transactions_period" p rep_data
    match (alookup "transactions" d1).bind (fun tv => valGet tv "total") with
    | none => Except.error "KeyError: total"
    | some t =>
      let d2 := dictSet "transactions_total" t d1
      let d3 := dictDel "transactions" d2
      Except.ok (d3, [d3])

/-- `get_seller` (source lines 230-244) with the GET and JSON parse
abstracted as the per-seller `fetch` outcome: read `user_type`, split the
`seller_reputation` record, then tag the frame with `seller_id` and
`user_type`; every failure propagates to the caller. -/
def get_seller (fetch : String → Except String Val) (seller_id : String) :
    Except String DF :=
  match fetch seller_id with
  | Except.error e => Except.error e
  | Except.ok v =>
    match valGet v "user_type" with
    | none => Except.error "KeyError: user_type"
    | some usertype_data =>
      match valGet v "seller_reputation" with
      | some (Val.obj rep) =>
        match get_seller_reputation_data rep with
        | Except.error e => Except.error e
        | Except.ok (_, df) =>
          Except.ok (df.map (fun row =>
            dictSet "user_type" usertype_data
              (dictSet "seller_id" (Val.str seller_id) row)))
      | _ => Except.error "KeyError: seller_reputation"

/-- `get_all_sellers` (source lines 268-285): map `get_seller` over the ids;
iterating the executor results re-raises the first per-seller failure;
otherwise `pd.concat` the frames, persist and return. -/
def get_all_sellers (fetch : String → Except String Val)
    (sellers_id : List String) : Except String DF :=
  match sellers_id.mapM (get_seller fetch) with
  | Except.error e => Except.error e
  | Except.ok dfs => concatDF dfs

/-- C9: on the empty id list both batch operations raise the `pd.concat`
"No objects to concatenate" error instead of returning or persisting an
empty table. -/
theorem c9_empty_batch_raises (fetchS fetchR : String → Except String Val) :
    get_all_sellers fetchS [] =
      Except.error "ValueError: No objects to concatenate" ∧
    get_all_ratings fetchR [] =
      Except.error "ValueError: No objects to concatenate" :=
  ⟨rfl, rfl⟩

/-- Looking up the key just set returns the new value. -/
theorem alookup_dictSet_self (k : String) (v : Val) (d : Dict) :
    alookup k (dictSet k v d) = some v := by
  induction d with
  | nil => simp [dictSet, alookup]
  | cons hd tl ih =>
    by_cases h : hd.1 = k
    · simp [dictSet, h, alookup]
    · simp [dictSet, h, alookup, ih]

/-- Setting one key leaves the lookup of any other key unchanged. -/
theorem alookup_dictSet_ne (k k2 : String) (v : Val) (d : Dict)
    (hne : k ≠ k2) :
    alookup k2 (dictSet k v d) = alookup k2 d := by
  induction d with
  | nil => simp [dictSet, alookup, hne]
  | cons hd tl ih =>
    by_cases h : hd.1 = k
    · simp [dictSet, h, alookup, hne]
    · by_cases h2 : hd.1 = k2
      · simp [dictSet, h, alookup, h2, Ne.symm hne]
      · simp [dictSet, h, alookup, h2, ih]

/-- Deleting a key removes it. -/
theorem alookup_dictDel_self (k : String) (d : Dict) :
    alookup k (dictDel k d) = none := by
  induction d with
  | nil => simp [dictDel, alookup]
  | cons hd tl ih =>
    rcases hd with ⟨k2, v⟩
    by_cases h : k2 = k
    · simpa [dictDel, h] using ih
    · simpa [dictDel, alookup, h] using ih

/-- Deleting one key leaves the lookup of any other key unchanged. -/
theorem alookup_dictDel_ne (k k2 : String) (d : Dict) (hne : k2 ≠ k) :
    alookup k2 (dictDel k d) = alookup k2 d := by
  induction d with
  | nil => simp [dictDel, alookup]
  | cons hd tl ih =>
    rcases hd with ⟨k3, v⟩
    by_cases h : k3 = k
    · simpa [dictDel, h, alookup, Ne.symm hne] using ih
    · by_cases h2 : k3 = k2
      · simp [dictDel, alookup, h, h2, hne]
      · simp [dictDel, alookup, h, h2, ih]

/-- C10: when the reputation dict has a `transactions` record with `period`
and `total` fields, the splitting operation succeeds and the caller's dict
afterwards has gained `transactions_period` and `transactions_total` (with
those values) and has lost `transactions`; the returned frame is the single
mutated dict. -/
theorem c10_reputation_split_in_place (rep_data : Dict)
    (fl : List (String × Val)) (p t : Val)
    (htr : alookup "transactions" rep_data = some (Val.obj fl))
    (hp : alookup "period" fl = some p)
    (ht : alookup "total" fl = some t) :
    ∃ d3 : Dict, get_seller_reputation_data rep_data = Except.ok (d3, [d3]) ∧
      alookup "transactions_period" d3 = some p ∧
      alookup "transactions_total" d3 = some t ∧
      alookup "transactions" d3 = none := by
  have h1 : (alookup "transactions" rep_data).bind (fun tv => valGet tv "period")
      = some p := by
    simp [htr, valGet, hp]
  have htr1 : alookup "transactions" (dictSet "transactions_period" p rep_data)
      = some (Val.obj fl) := by
    rw [alookup_dictSet_ne _ _ _ _ (by decide)]
    exact htr
  have h2 : (alookup "transactions" (dictSet "transactions_period" p rep_data)).bind
      (fun tv => valGet tv "total") = some t := by
    simp [htr1, valGet, ht]
  refine ⟨dictDel "transactions"
      (dictSet "transactions_total" t (dictSet "transactions_period" p rep_data)),
    ?_, ?_, ?_, ?_⟩
  · simp only [get_seller_reputation_data, h1, h2]
  · rw [alookup_dictDel_ne _ _ _ (by decide),
      alookup_dictSet_ne _ _ _ _ (by decide), alookup_dictSet_self]
  · rw [alookup_dictDel_ne _ _ _ (by decide), alookup_dictSet_self]
  · exact alookup_dictDel_self _ _

/-- C10 witness: a concrete reputation dict. -/
theorem c10_reputation_split_in_place_witness :
    ∃ d3 : Dict, get_seller_reputation_data
        [("level_id", Val.str "5_green"),
         ("transactions", Val.obj [("period", Val.str "historic"),
                                   ("total", Val.num 40)])]
      = Except.ok (d3, [d3]) ∧
      alookup "transactions_period" d3 = some (Val.str "historic") ∧
      alookup "transactions_total" d3 = some (Val.num 40) ∧
      alookup "transactions" d3 = none :=
  c10_reputation_split_in_place
    [("level_id", Val.str "5_green"),
     ("transactions", Val.obj [("period", Val.str "historic"),
                               ("total", Val.num 40)])]
    [("period", Val.str "historic"), ("total", Val.num 40)]
    (Val.str "historic") (Val.num 40) rfl rfl rfl

/-- A filter whose predicate only inspects the key commutes with lookup. -/
theorem alookup_filter_key (pred : String → Bool) (k : String) (d : Dict) :
    alookup k (d.filter (fun p => pred p.1)) =
      if pred k then alookup k d else none := by
  induction d with
  | nil => simp [alookup]
  | cons hd tl ih =>
    rcases hd with ⟨k2, v⟩
    by_cases h : k2 = k
    · subst h
      by_cases hp : pred k2 <;> simp [alookup, hp, ih]
    · by_cases hp : pred k2 <;> simp [alookup, hp, h, ih]

/-- Membership in a left fold of appends. -/
theorem mem_foldl_append {α β : Type} (f : α → List β) :
    ∀ (cols : List α) (acc : List β) (x : β),
      (x ∈ cols.foldl (fun acc2 c => acc2 ++ f c) acc ↔
        x ∈ acc ∨ ∃ c ∈ cols, x ∈ f c) := by
  intro cols
  induction cols with
  | nil => simp
  | cons c t ih =>
    intro acc x
    simp only [List.foldl_cons]
    rw [ih]
    simp [List.mem_append, or_assoc]

/-- Zipping a list against its own image under `g` with append is a map. -/
theorem zipWith_append_map_self (g : Dict → Dict) :
    ∀ l : DF, List.zipWith (fun r e => r ++ e) l (l.map g) =
      l.map (fun r => r ++ g r) := by
  intro l
  induction l with
  | nil => rfl
  | cons a t ih => simp [ih]

/-- The tail of the item pipeline (explode, axis=1 concat, clean) puts a
`shipping_free` column with value true on the row whose `shipping` record
has `free: true`, and strips every `shipping` column. -/
theorem shipping_tail_pipeline (df3 : DF) (i : Nat) (r3 : Dict)
    (fl : List (String × Val)) (h3 : df3[i]? = some r3)
    (hship : alookup "shipping" r3 = some (Val.obj fl))
    (hfree : ("free", Val.bool true) ∈ fl) :
    ∃ outRow : Dict,
      (clean_data_cols
          (List.zipWith (fun r e => r ++ e) df3 (explode_data df3)))[i]?
        = some outRow ∧
      ("shipping_free", Val.bool true) ∈ outRow ∧
      ∀ v : Val, ("shipping", v) ∉ outRow := by
  have hcol : dfHasCol df3 "shipping" = true := by
    simp only [dfHasCol, List.any_eq_true]
    exact ⟨r3, List.getElem?_mem h3, by simp [hship]⟩
  have hex : ("shipping_free", Val.bool true) ∈ explodeRow df3 r3 := by
    have hmem : "shipping" ∈ cols_explode.filter (fun col => dfHasCol df3 col) := by
      simp [cols_explode, hcol]
    unfold explodeRow
    rw [mem_foldl_append]
    refine Or.inr ⟨"shipping", hmem, ?_⟩
    simp only [explodeRowCol, hship]
    exact List.mem_map.mpr ⟨("free", Val.bool true), hfree, rfl⟩
  have h4 : (List.zipWith (fun r e => r ++ e) df3 (explode_data df3))[i]?
      = some (r3 ++ explodeRow df3 r3) := by
    unfold explode_data
    rw [zipWith_append_map_self (explodeRow df3) df3]
    simp [h3]
  refine ⟨(r3 ++ explodeRow df3 r3).filter (fun p => !(cols_delete.contains p.1)),
    ?_, ?_, ?_⟩
  · simp [clean_data_cols, h4]
  · rw [List.mem_filter]
    exact ⟨List.mem_append.mpr (Or.inr hex), by decide⟩
  · intro v hv
    rw [List.mem_filter] at hv
    have hpred := hv.2
    simp [cols_delete] at hpred

/-- Indexing through a successful row-by-row brand assignment. -/
theorem apply_brand_getElem (l : List Dict) :
    ∀ l2 : List Dict, apply_brand l = Except.ok l2 →
      ∀ (i : Nat) (a : Dict), l[i]? = some a →
        ∃ b, brand_of_attrs_cell (alookup "attributes" a) = Except.ok b ∧
          l2[i]? = some (dictSet "brand" b a) := by
  induction l with
  | nil =>
    intro l2 _ i a ha
    simp at ha
  | cons hd tl ih =>
    intro l2 happ i a ha
    unfold apply_brand at happ
    rcases hb : brand_of_attrs_cell (alookup "attributes" hd) with e | b0
    · rw [hb] at happ
      exact absurd happ (by simp)
    · rw [hb] at happ
      rcases ht : apply_brand tl with e | tl2
      · rw [ht] at happ
        exact absurd happ (by simp)
      · rw [ht] at happ
        injection happ with h2
        subst h2
        cases i with
        | zero =>
          simp only [List.getElem?_cons_zero, Option.some.injEq] at ha
          subst ha
          exact ⟨b0, hb, by simp⟩
        | succ i2 =>
          simp only [List.getElem?_cons_succ] at ha
          obtain ⟨b, hb2, hl2⟩ := ih tl2 ht i2 a ha
          exact ⟨b, hb2, by simpa using hl2⟩

/-- Conjunct 1 of C6 over the whole page-fetch pipeline: whenever the fetch
returns a table at all, the row whose `shipping` record has `free: true`
carries `shipping_free = true` and no `shipping` column. -/
theorem items_by_category_shipping_free (results : List Dict)
    (category : String) (i : Nat) (row : Dict) (fl : List (String × Val))
    (hrow : results[i]? = some row)
    (hship : alookup "shipping" row = some (Val.obj fl))
    (hfree : ("free", Val.bool true) ∈ fl)
    (out : DF) (hout : items_by_category results category = Except.ok out) :
    ∃ outRow : Dict, out[i]? = some outRow ∧
      ("shipping_free", Val.bool true) ∈ outRow ∧
      ∀ v : Val, ("shipping", v) ∉ outRow := by
  have hilt : i < results.length := (List.getElem?_eq_some_iff.mp hrow).1
  have h1 : (results.map (fun r => dictSet "category" (Val.str category) r))[i]?
      = some (dictSet "category" (Val.str category) row) := by
    simp [hrow]
  have hship1 : alookup "shipping" (dictSet "category" (Val.str category) row)
      = some (Val.obj fl) := by
    rw [alookup_dictSet_ne _ _ _ _ (by decide)]
    exact hship
  have hkeep : colKeep (results.map (fun r => dictSet "category" (Val.str category) r))
      "shipping" = true := by
    simp only [colKeep, List.any_eq_true]
    exact ⟨dictSet "category" (Val.str category) row, List.getElem?_mem h1,
      by simp [hship1, Val.isNull]⟩
  have h2 : (dropNullCols (results.map (fun r => dictSet "category" (Val.str category) r)))[i]?
      = some ((dictSet "category" (Val.str category) row).filter
        (fun p => colKeep (results.map (fun r => dictSet "category" (Val.str category) r)) p.1)) := by
    simp [dropNullCols, hrow]
  have hship2 : alookup "shipping"
      ((dictSet "category" (Val.str category) row).filter
        (fun p => colKeep (results.map (fun r => dictSet "category" (Val.str category) r)) p.1))
      = some (Val.obj fl) := by
    rw [alookup_filter_key]
    simp [hkeep, hship1]
  have hlen : ¬ (dropNullCols (results.map (fun r => dictSet "category" (Val.str category) r))).length = 0 := by
    simp only [dropNullCols, List.length_map]
    omega
  unfold items_by_category at hout
  rw [if_neg hlen] at hout
  split at hout
  · exact absurd hout (by simp)
  · rename_i items2 hbr
    injection hout with hout2
    obtain ⟨r3, h3, hship3⟩ : ∃ r3, items2[i]? = some r3 ∧
        alookup "shipping" r3 = some (Val.obj fl) := by
      by_cases hattr : dfHasCol
          (dropNullCols (results.map (fun r => dictSet "category" (Val.str category) r)))
          "attributes"
      · rw [if_pos hattr] at hbr
        obtain ⟨b, _, h3⟩ := apply_brand_getElem _ _ hbr i _ h2
        refine ⟨_, h3, ?_⟩
        rw [alookup_dictSet_ne _ _ _ _ (by decide)]
        exact hship2
      · rw [if_neg hattr] at hbr
        injection hbr with hbr2
        subst hbr2
        exact ⟨_, h2, hship2⟩
    subst hout2
    exact shipping_tail_pipeline items2 i r3 fl h3 hship3 hfree

/-- Conjunct 2 of C6: a record value of a present explodable column is
expanded into prefixed columns on the same row. -/
theorem explode_data_expands (df : DF) (i : Nat) (row : Dict) (col : String)
    (fl : List (String × Val)) (k : String) (v : Val)
    (hrow : df[i]? = some row) (hcolex : col ∈ cols_explode)
    (hval : alookup col row = some (Val.obj fl)) (hkv : (k, v) ∈ fl) :
    ∃ exRow : Dict, (explode_data df)[i]? = some exRow ∧
      (col ++ "_" ++ k, v) ∈ exRow := by
  have hcol : dfHasCol df col = true := by
    simp only [dfHasCol, List.any_eq_true]
    exact ⟨row, List.getElem?_mem hrow, by simp [hval]⟩
  refine ⟨explodeRow df row, by simp [explode_data, hrow], ?_⟩
  unfold explodeRow
  rw [mem_foldl_append]
  refine Or.inr ⟨col, by simp [hcolex, hcol], ?_⟩
  simp only [explodeRowCol, hval]
  exact List.mem_map.mpr ⟨(k, v), hkv, rfl⟩

/-- Conjunct 3 of C6: when every explodable column is absent from the page,
the explosion contributes nothing (and raises nothing). -/
theorem explode_data_absent (df : DF)
    (habs : ∀ col ∈ cols_explode, dfHasCol df col = false) :
    ∀ exRow ∈ explode_data df, exRow = [] := by
  intro exRow hmem
  obtain ⟨row, _, rfl⟩ := List.mem_map.mp hmem
  unfold explodeRow
  have hnil : cols_explode.filter (fun col => dfHasCol df col) = [] := by
    rw [List.filter_eq_nil_iff]
    intro c hc
    simp [habs c hc]
  rw [hnil]
  rfl

/-- C6: whenever the page fetch returns a table, a row whose `shipping`
record is `{free: true}` comes out with a `shipping_free` column equal to
true and no `shipping` column; in general every record value of a present
column among `shipping`, `seller`, `installments`, `brand` is expanded into
`<col>_<subkey>` columns, and absent explodable columns are skipped without
error, contributing nothing. -/
theorem c6_flatten_shipping :
    (∀ (results : List Dict) (category : String) (i : Nat) (row : Dict)
        (fl : List (String × Val)),
      results[i]? = some row →
      alookup "shipping" row = some (Val.obj fl) →
      ("free", Val.bool true) ∈ fl →
      ∀ out : DF, items_by_category results category = Except.ok out →
      ∃ outRow : Dict, out[i]? = some outRow ∧
        ("shipping_free", Val.bool true) ∈ outRow ∧
        ∀ v : Val, ("shipping", v) ∉ outRow) ∧
    (∀ (df : DF) (i : Nat) (row : Dict) (col : String)
        (fl : List (String × Val)) (k : String) (v : Val),
      df[i]? = some row → col ∈ cols_explode →
      alookup col row = some (Val.obj fl) → (k, v) ∈ fl →
      ∃ exRow : Dict, (explode_data df)[i]? = some exRow ∧
        (col ++ "_" ++ k, v) ∈ exRow) ∧
    (∀ df : DF, (∀ col ∈ cols_explode, dfHasCol df col = false) →
      ∀ exRow ∈ explode_data df, exRow = []) :=
  ⟨items_by_category_shipping_free, explode_data_expands, explode_data_absent⟩

/-- C6 witness: a one-row page with `shipping = {free: true}`, a seller
record expansion, and a page with no explodable columns. -/
theorem c6_flatten_shipping_witness :
    (∃ outRow : Dict,
      ([[("category", Val.str "c"), ("shipping_free", Val.bool true)]] : DF)[0]?
        = some outRow ∧
      ("shipping_free", Val.bool true) ∈ outRow ∧
      ∀ v : Val, ("shipping", v) ∉ outRow) ∧
    (∃ exRow : Dict,
      (explode_data [[("seller", Val.obj [("sid", Val.num 7)])]])[0]? = some exRow ∧
      ("seller" ++ "_" ++ "sid", Val.num 7) ∈ exRow) ∧
    (∀ exRow ∈ explode_data [[("title", Val.str "t")]], exRow = []) :=
  ⟨c6_flatten_shipping.1 [[("shipping", Val.obj [("free", Val.bool true)])]] "c"
      0 [("shipping", Val.obj [("free", Val.bool true)])] [("free", Val.bool true)]
      rfl rfl (by simp)
      [[("category", Val.str "c"), ("shipping_free", Val.bool true)]] rfl,
   c6_flatten_shipping.2.1 [[("seller", Val.obj [("sid", Val.num 7)])]] 0
      [("seller", Val.obj [("sid", Val.num 7)])] "seller" [("sid", Val.num 7)]
      "sid" (Val.num 7) rfl (by simp [cols_explode]) rfl (by simp),
   c6_flatten_shipping.2.2 [[("title", Val.str "t")]] (by decide)⟩

end MlDiscounts
